import Mathlib

/-!
Verification development for the genetic-analyzer repository.

Shallow embedding conventions:
* Python float arithmetic is embedded as exact arithmetic: `ℚ` for values
  whose uses stay in `+ - * / <` land, coerced into `ℝ` where the code takes
  `math.sqrt` or a non-integer power (`** 1.5`).
* Python dicts whose keys are fixed field names become structures with
  `Option` fields (`none` = key absent or value `None`).
* Genotypes are `String`s as in the source; allele counting is
  `List.count` over `String.toList` (Python `str.count` with a one-letter
  needle counts exactly the occurrences of that character).
-/

/-! ## effect_utils.py -/

/-- The `EFFECT_BINS` table of `effect_utils.py`, in source order:
`(low, high, label)` with inclusive bounds. -/
def EFFECT_BINS : List (ℚ × ℚ × String) :=
  [(0.9, 1.1, "negligible"),
   (0.8, 0.9, "small"),
   (1.1, 1.25, "small"),
   (0.67, 0.8, "moderate"),
   (1.25, 1.5, "moderate"),
   (0.5, 0.67, "large"),
   (1.5, 2.0, "large")]

/-- The `for low, high, label in EFFECT_BINS` loop of `categorize_or`:
returns the label of the first bin with `low <= effective_or <= high`,
or `none` when no bin matches. -/
def find_bin : List (ℚ × ℚ × String) → ℚ → Option String
  | [], _ => none
  | (low, high, label) :: rest, e =>
      if low ≤ e ∧ e ≤ high then some label else find_bin rest e

/-- The `categorize_or` function of `effect_utils.py`.  `none` models the
Python argument `None`.  The source sets `effective_or = 1/or_val` for
`0 < or_val < 1`, returns early on `or_val == 1` and `or_val <= 0`, then
scans `EFFECT_BINS`; on loop fall-through the leaked loop variable `label`
is always the last bin's `"large"`, so the fall-through test
`label != 'negligible'` is always true and only the direction of the
original value decides between the two `very_large` labels. -/
def categorize_or : Option ℚ → String
  | none => "unknown"
  | some or_val =>
      if or_val = 1 then "negligible"
      else if or_val ≤ 0 then "very_large_protective_effect_or_error"
      else
        let effective_or := if or_val < 1 then 1 / or_val else or_val
        match find_bin EFFECT_BINS effective_or with
        | some label =>
            if or_val < 1 ∧ label ≠ "negligible" then label ++ "_protective"
            else label
        | none => if or_val < 1 then "very_large_protective" else "very_large_risk"

/-! ## advanced_genetic_analyzer.py utilities -/

/-- The `complement_map` of `reverse_complement` restricted to upper-case
bases; any other character is returned unchanged (`complement_map.get(base,
base)`). -/
def complement_base (c : Char) : Char :=
  if c = 'A' then 'T'
  else if c = 'T' then 'A'
  else if c = 'C' then 'G'
  else if c = 'G' then 'C'
  else c

/-- The `reverse_complement` utility of `advanced_genetic_analyzer.py`:
complement every base and reverse the sequence. -/
def reverse_complement (sequence : String) : String :=
  String.mk (sequence.toList.reverse.map complement_base)

/-- Complementation with the order preserved (each base mapped A↔T, C↔G,
position kept), the operation named by the strand-ambiguity spec text. -/
def complement_in_place (sequence : String) : String :=
  String.mk (sequence.toList.map complement_base)

/-! ## genetic_analyzer_ultra.py: the variant risk calculator -/

/-- One effect-database record as `_calculate_variant_risk` probes it:
every field is optional because the source dictionaries carry an ad-hoc
subset of keys per record. -/
structure VariantInfo where
  effect_size : Option ℚ := none
  risk_allele : Option Char := none
  ci_95 : Option (ℚ × ℚ) := none
  fast_allele : Option Char := none
  slow_allele : Option Char := none

/-- The `risk_analysis` result dictionary of `_calculate_variant_risk`:
a field is `none` when the source leaves the key out (or, for
`relative_risk_ci_95`, sets it to `None`). -/
structure RiskAnalysis where
  relative_risk : Option ℝ := none
  risk_level : Option String := none
  interpretation : Option String := none
  relative_risk_ci_95 : Option (ℝ × ℝ) := none
  phenotype : Option String := none

/-- The `elif 'fast_allele' in variant_info` branch of
`_calculate_variant_risk` (metabolic variants), reached when the numeric
branch does not fire; with no `fast_allele` key the function returns the
empty `risk_analysis` dict. -/
def fast_allele_branch (genotype : String) (v : VariantInfo) : RiskAnalysis :=
  match v.fast_allele with
  | some fa =>
      if genotype = String.mk [fa, fa] then
        { phenotype := some "Fast metabolizer",
          risk_level := some "Variable by substance" }
      else
        match v.slow_allele with
        | some sa =>
            if genotype = String.mk [sa, sa] then
              { phenotype := some "Slow metabolizer",
                risk_level := some "Variable by substance" }
            else
              { phenotype := some "Intermediate metabolizer",
                risk_level := some "Variable by substance" }
        | none =>
            { phenotype := some "Intermediate metabolizer",
              risk_level := some "Variable by substance" }
  | none => {}

open Classical in
/-- The numeric branch of `_calculate_variant_risk` (`'risk_allele' in
variant_info and effect_size is not None`): allele counting, the
count-indexed point estimate (`effect_size ** 1.5` for homozygotes, with
the reciprocal exponent below 1), and the confidence-interval propagation.
The `effect_category` / `absolute_risk` keys of the source are not modelled
(no claim mentions them). -/
noncomputable def numeric_risk_branch (genotype : String) (risk_allele : Char)
    (effect_size : ℚ) (ci_95 : Option (ℚ × ℚ)) : RiskAnalysis :=
  let risk_allele_count := genotype.toList.count risk_allele
  let base : RiskAnalysis :=
    if risk_allele_count = 0 then
      { relative_risk := some 1.0,
        risk_level := some "Low",
        interpretation := some "No risk alleles present" }
    else if risk_allele_count = 1 then
      { relative_risk := some (effect_size : ℝ),
        risk_level := some (if effect_size < 1.5 ∧ effect_size ≥ 1.0 then "Moderate"
          else if effect_size ≥ 1.0 then "Moderately High" else "Protective"),
        interpretation := some "Heterozygous carrier" }
    else
      let rr : ℝ := if effect_size ≥ 1 then (effect_size : ℝ) ^ (1.5 : ℝ)
        else (effect_size : ℝ) ^ ((1 : ℝ) / 1.5)
      { relative_risk := some rr,
        risk_level := some
          (if (effect_size ≥ 1 ∧ rr > 1.3 * (effect_size : ℝ)) ∨
              (effect_size < 1 ∧ rr < 0.7 * (effect_size : ℝ)) then "High"
           else if effect_size ≥ 1.0 then "Moderately High" else "Strongly Protective"),
        interpretation := some "Homozygous risk variant" }
  let ci : Option (ℝ × ℝ) :=
    match ci_95 with
    | some (lower_ci_allele, upper_ci_allele) =>
        if risk_allele_count = 0 then some (1.0, 1.0)
        else if risk_allele_count = 1 then
          some ((lower_ci_allele : ℝ), (upper_ci_allele : ℝ))
        else if risk_allele_count = 2 then
          if effect_size ≥ 1 then
            some ((if lower_ci_allele > 0 then (lower_ci_allele : ℝ) ^ (1.5 : ℝ) else 0),
                  (upper_ci_allele : ℝ) ^ (1.5 : ℝ))
          else
            let a : ℝ := if upper_ci_allele > 0 then (upper_ci_allele : ℝ) ^ ((1 : ℝ) / 1.5) else 0
            let b : ℝ := (lower_ci_allele : ℝ) ^ ((1 : ℝ) / 1.5)
            some (min a b, max a b)
        else none
    | none => none
  { base with relative_risk_ci_95 := ci }

/-- The `_calculate_variant_risk` method of `genetic_analyzer_ultra.py`.
The first `match` arm is the VCF-style shortcut (`effect_size` present, no
`risk_allele` key, `'/'` in the genotype); with a `risk_allele` key and a
numeric effect size the numeric branch runs; otherwise control falls
through to the `fast_allele` branch (or the empty dict). -/
noncomputable def _calculate_variant_risk (genotype : String) (v : VariantInfo) :
    RiskAnalysis :=
  match v.effect_size, v.risk_allele with
  | some effect_size, none =>
      if '/' ∈ genotype.toList then
        { relative_risk := some ((effect_size : ℝ) ^ (genotype.toList.count '1')) }
      else fast_allele_branch genotype v
  | some effect_size, some risk_allele =>
      numeric_risk_branch genotype risk_allele effect_size v.ci_95
  | none, _ => fast_allele_branch genotype v

/-! ## genetic_analyzer_ultra.py: the polygenic score engine -/

/-- One entry of a polygenic score model's `variants` dict, as
`calculate_polygenic_scores` probes it. -/
structure PRSVariant where
  weight : ℚ
  risk_allele : Option Char := none
  tall_allele : Option Char := none
  education_allele : Option Char := none
  se_weight : Option ℚ := none
  ci_95_weight : Option (ℚ × ℚ) := none

/-- One named score model: its variants (keyed by rsid, in dict order) and
the population normalisation constants. -/
structure ScoreInfo where
  variants : List (String × PRSVariant)
  population_mean : ℚ
  population_sd : ℚ

/-- Per-model output of `calculate_polygenic_scores`; `variants_found`
keeps the `found / total` pair that the source formats as a string. -/
structure PRSResult where
  raw_score : ℚ
  raw_score_ci_95 : Option (ℝ × ℝ)
  z_score : ℚ
  z_score_ci_95 : Option (ℝ × ℝ)
  variants_found : ℕ × ℕ

/-- The `self.data[self.data['rsid'] == rsid]` lookup: genotype of the
first sample row carrying the rsid, if any. -/
def lookup_genotype (calls : List (String × String)) (rsid : String) : Option String :=
  (calls.find? (fun p => p.1 = rsid)).map (fun p => p.2)

/-- The `if 'risk_allele' ... elif 'tall_allele' ... elif
'education_allele' ... else: continue` chain choosing the effect allele. -/
def effect_allele_of (v : PRSVariant) : Option Char :=
  match v.risk_allele with
  | some a => some a
  | none =>
      match v.tall_allele with
      | some a => some a
      | none => v.education_allele

/-- The `se_weight` / `ci_95_weight` ladder producing
`var_of_weighted_effect` for one found variant with `allele_count` copies
of the effect allele. -/
def var_of_weighted_effect (v : PRSVariant) (allele_count : ℕ) : ℚ :=
  match v.se_weight with
  | some se_weight => (allele_count : ℚ) ^ 2 * se_weight ^ 2
  | none =>
      match v.ci_95_weight with
      | some (lower_w_ci, upper_w_ci) =>
          (allele_count : ℚ) ^ 2 * ((upper_w_ci - lower_w_ci) / 3.92) ^ 2
      | none => 0

/-- Loop body of `calculate_polygenic_scores`: the running state is
`(score, variants_found, variance_sum_for_prs)`. -/
def prs_step (calls : List (String × String)) (st : ℚ × ℕ × ℚ)
    (entry : String × PRSVariant) : ℚ × ℕ × ℚ :=
  match lookup_genotype calls entry.1 with
  | none => st
  | some genotype =>
      match effect_allele_of entry.2 with
      | none => st
      | some effect_allele =>
          let allele_count := genotype.toList.count effect_allele
          (st.1 + (allele_count : ℚ) * entry.2.weight,
           st.2.1 + 1,
           st.2.2 + var_of_weighted_effect entry.2 allele_count)

/-- The accumulated `(score, variants_found, variance_sum_for_prs)` of one
model's variant loop. -/
def prs_accumulate (score_info : ScoreInfo) (calls : List (String × String)) :
    ℚ × ℕ × ℚ :=
  score_info.variants.foldl (prs_step calls) (0, 0, 0)

/-- Body of `calculate_polygenic_scores` for one score model: the variant
loop, the z-score normalisation, and the variance-driven confidence
intervals (`None` unless `variance_sum_for_prs > 0`; the z-score CI also
needs `population_sd != 0`).  The `percentile` (`scipy.stats.norm.cdf`)
and interpretation string are not modelled (no claim mentions them). -/
noncomputable def calculate_polygenic_score (score_info : ScoreInfo)
    (calls : List (String × String)) : PRSResult :=
  let st := prs_accumulate score_info calls
  let score := st.1
  let variants_found := st.2.1
  let variance_sum_for_prs := st.2.2
  let z_score := (score - score_info.population_mean) / score_info.population_sd
  let prs_ci_95_raw : Option (ℝ × ℝ) :=
    if variance_sum_for_prs > 0 then
      some ((score : ℝ) - 1.96 * Real.sqrt (variance_sum_for_prs : ℝ),
            (score : ℝ) + 1.96 * Real.sqrt (variance_sum_for_prs : ℝ))
    else none
  let prs_ci_95_zscore : Option (ℝ × ℝ) :=
    if variance_sum_for_prs > 0 ∧ score_info.population_sd ≠ 0 then
      some ((((score : ℝ) - 1.96 * Real.sqrt (variance_sum_for_prs : ℝ)) -
              (score_info.population_mean : ℝ)) / (score_info.population_sd : ℝ),
            (((score : ℝ) + 1.96 * Real.sqrt (variance_sum_for_prs : ℝ)) -
              (score_info.population_mean : ℝ)) / (score_info.population_sd : ℝ))
    else none
  { raw_score := score,
    raw_score_ci_95 := prs_ci_95_raw,
    z_score := z_score,
    z_score_ci_95 := prs_ci_95_zscore,
    variants_found := (variants_found, score_info.variants.length) }

/-- The outer loop of `calculate_polygenic_scores` over all named models. -/
noncomputable def calculate_polygenic_scores (models : List (String × ScoreInfo))
    (calls : List (String × String)) : List (String × PRSResult) :=
  models.map (fun m => (m.1, calculate_polygenic_score m.2 calls))

/-! ## validation.py: the direction-conflict check -/

/-- The `check_type == 'direction_conflict'` branch of `validation.validate`
(lines 149-175): `calculated_or` is the value `get_nested_value` located in
the result tree (`none` when it could not be found), and the returned
string is the finding's `status`.  Substring containment models Python's
`'risk' in s` / `'protective' in s` (the categorizer output is already
lower-case). -/
def direction_conflict_status (expected_direction : String)
    (calculated_or : Option ℚ) : String :=
  match calculated_or with
  | none => "NOT_APPLICABLE"
  | some or_val =>
      let observed_effect_category := categorize_or (some or_val)
      let observed_is_risk := "risk".toList <:+: observed_effect_category.toList
      let observed_is_protective :=
        "protective".toList <:+: observed_effect_category.toList
      if (expected_direction = "risk" ∧ observed_is_protective) ∨
         (expected_direction = "protective" ∧ observed_is_risk) then
        "DIRECTION_CONFLICT"
      else "PASS"

/-! ## utils/safety.py: the safeguard decorator -/

/-- The crash dump assembled by `safeguard`'s `except` handler: stage
name, the caught exception, and the partial results snapshot. -/
structure DumpData (ρ ε : Type) where
  stage_failed : String
  error : ε
  partial_results_dumped : ρ

/-- One run of the wrapper `inner` that `safeguard(stage)` builds around a
stage body.  `body` is the stage outcome (`Except.error` = the body raised),
`results` the analyzer's partial result snapshot, and `write_ok` whether
writing the dump file succeeds (the source wraps `write_text` in its own
`try`/`except`).  Returns the wrapper's outcome plus the dump attempt:
`none` = no dump assembled, `some (d, written)` = dump `d` assembled and
`written` says whether the file write went through. -/
def safeguard (stage : String) (results : ρ) (body : Except ε α)
    (write_ok : Bool) : Except ε α × Option (DumpData ρ ε × Bool) :=
  match body with
  | .ok a => (.ok a, none)
  | .error exc => (.error exc, some (⟨stage, exc, results⟩, write_ok))

/-! ## versioning.py: provenance hashing

The result tree passed to `provenance_hash` / `finalize_provenance` is a
JSON-style tree.  A leaf that is not natively JSON-serializable (for
example a `datetime`) is carried as `JValue.coerced s` where `s` is its
`str()` form: `json.dumps(..., default=str)` renders such a leaf exactly
like the plain string `s`.  The `except TypeError` fallback of the source
is unreachable for string-keyed trees of these leaves and is not
modelled. -/

/-- A JSON-serializable result tree. -/
inductive JValue where
  | null : JValue
  | bool : Bool → JValue
  | int : Int → JValue
  | str : String → JValue
  | coerced : String → JValue
  | arr : List JValue → JValue
  | obj : List (String × JValue) → JValue

/-- Lower-case hex rendering of `n` on `k` digits (big-endian). -/
def hex_digits (k : Nat) (n : Nat) : List Char :=
  (List.range k).map (fun i =>
    let d := (n >>> (4 * (k - 1 - i))) % 16
    if d < 10 then Char.ofNat (48 + d) else Char.ofNat (87 + d))

/-- JSON escaping of one character as `json.dumps` (default
`ensure_ascii=True`) performs it: the two-character escapes for quote,
backslash and the common control characters, `\uXXXX` for the remaining
control characters and for everything outside printable ASCII (surrogate
pairs beyond the basic plane). -/
def escape_char (c : Char) : String :=
  if c = '"' then "\\\""
  else if c = '\\' then "\\\\"
  else if c.toNat = 10 then "\\n"
  else if c.toNat = 9 then "\\t"
  else if c.toNat = 13 then "\\r"
  else if c.toNat = 8 then "\\b"
  else if c.toNat = 12 then "\\f"
  else if c.toNat < 32 ∨ c.toNat > 126 then
    if c.toNat < 65536 then String.mk ('\\' :: 'u' :: hex_digits 4 c.toNat)
    else
      let v := c.toNat - 65536
      String.mk (('\\' :: 'u' :: hex_digits 4 (55296 + v / 1024)) ++
                 ('\\' :: 'u' :: hex_digits 4 (56320 + v % 1024)))
  else String.singleton c

/-- A JSON string literal: quotes around the escaped characters. -/
def escape_string (s : String) : String :=
  "\"" ++ String.join (s.toList.map escape_char) ++ "\""

/-- Sorting of an object's rendered entries by key, the effect of
`json.dumps(..., sort_keys=True)`; each pair is (raw key, rendered
`"key": value` item). -/
def sort_obj_entries (l : List (String × String)) : List (String × String) :=
  List.insertionSort (fun a b => a.1 ≤ b.1) l

mutual
/-- Serialization of a result tree exactly as
`json.dumps(results, sort_keys=True, default=str)` renders it: item
separator `", "`, key separator `": "`, keys sorted at every level. -/
def serialize : JValue → String
  | .null => "null"
  | .bool b => if b then "true" else "false"
  | .int n => toString n
  | .str s => escape_string s
  | .coerced s => escape_string s
  | .arr xs => "[" ++ String.intercalate ", " (serialize_items xs) ++ "]"
  | .obj kvs =>
      "\x7b" ++
        String.intercalate ", " ((sort_obj_entries (render_entries kvs)).map (fun kv => kv.2)) ++
      "\x7d"
termination_by v => sizeOf v
decreasing_by all_goals simp_wf

/-- The serialized elements of an array, in order. -/
def serialize_items : List JValue → List String
  | [] => []
  | x :: xs => serialize x :: serialize_items xs
termination_by xs => sizeOf xs
decreasing_by all_goals simp_wf <;> omega

/-- The rendered `"key": value` items of an object, paired with their raw
keys (sorting happens afterwards and only permutes the entries). -/
def render_entries : List (String × JValue) → List (String × String)
  | [] => []
  | (k, v) :: rest => (k, escape_string k ++ ": " ++ serialize v) :: render_entries rest
termination_by kvs => sizeOf kvs
decreasing_by all_goals simp_wf <;> omega
end

/-- UTF-8 encoding of one character (`str.encode('utf-8')`). -/
def utf8_encode_char (c : Char) : List Nat :=
  let n := c.toNat
  if n < 128 then [n]
  else if n < 2048 then [192 + n / 64, 128 + n % 64]
  else if n < 65536 then [224 + n / 4096, 128 + (n / 64) % 64, 128 + n % 64]
  else [240 + n / 262144, 128 + (n / 4096) % 64, 128 + (n / 64) % 64, 128 + n % 64]

/-- UTF-8 byte sequence of a string. -/
def utf8_bytes (s : String) : List Nat :=
  (s.toList.map utf8_encode_char).flatten

/-- Truncation to a 32-bit word. -/
def w32 (x : Nat) : Nat := x % 4294967296

/-- Right rotation of a 32-bit word. -/
def rotr (n x : Nat) : Nat := w32 ((x >>> n) ||| (x <<< (32 - n)))

/-- Bitwise complement of a 32-bit word. -/
def not32 (x : Nat) : Nat := x ^^^ 4294967295

/-- The SHA-256 round constants (FIPS 180-4). -/
def SHA_K : List Nat :=
  [1116352408, 1899447441, 3049323471, 3921009573, 961987163,
   1508970993, 2453635748, 2870763221, 3624381080, 310598401,
   607225278, 1426881987, 1925078388, 2162078206, 2614888103,
   3248222580, 3835390401, 4022224774, 264347078, 604807628,
   770255983, 1249150122, 1555081692, 1996064986, 2554220882,
   2821834349, 2952996808, 3210313671, 3336571891, 3584528711,
   113926993, 338241895, 666307205, 773529912, 1294757372,
   1396182291, 1695183700, 1986661051, 2177026350, 2456956037,
   2730485921, 2820302411, 3259730800, 3345764771, 3516065817,
   3600352804, 4094571909, 275423344, 430227734, 506948616,
   659060556, 883997877, 958139571, 1322822218, 1537002063,
   1747873779, 1955562222, 2024104815, 2227730452, 2361852424,
   2428436474, 2756734187, 3204031479, 3329325298]

/-- The SHA-256 initial hash state (FIPS 180-4). -/
def SHA_H0 : List Nat :=
  [1779033703, 3144134277, 1013904242,
   2773480762, 1359893119, 2600822924,
   528734635, 1541459225]

/-- Big-endian byte rendering of `n` on `k` bytes. -/
def be_bytes (k : Nat) (n : Nat) : List Nat :=
  (List.range k).map (fun i => (n >>> (8 * (k - 1 - i))) % 256)

/-- SHA-256 message padding: `0x80`, zeros to 56 mod 64, then the bit
length on 8 bytes. -/
def sha256_pad (msg : List Nat) : List Nat :=
  msg ++ [128] ++ List.replicate ((119 - msg.length % 64) % 64) 0 ++
    be_bytes 8 (8 * msg.length)

/-- Big-endian 32-bit words of a 64-byte chunk. -/
def bytes_to_words : List Nat → List Nat
  | b0 :: b1 :: b2 :: b3 :: rest => (((b0 * 256 + b1) * 256 + b2) * 256 + b3) :: bytes_to_words rest
  | _ => []

/-- Message-schedule extension: appends one more `W[t]`. -/
def sha_extend (ws : List Nat) : List Nat :=
  let g := fun i => ws.getD (ws.length - i) 0
  let s0 := (rotr 7 (g 15)) ^^^ (rotr 18 (g 15)) ^^^ ((g 15) >>> 3)
  let s1 := (rotr 17 (g 2)) ^^^ (rotr 19 (g 2)) ^^^ ((g 2) >>> 10)
  ws ++ [w32 (g 16 + s0 + g 7 + s1)]

/-- One SHA-256 compression round on state `[a,b,c,d,e,f,g,h]` with
round constant and schedule word `kw`. -/
def sha_round (state : List Nat) (kw : Nat × Nat) : List Nat :=
  match state with
  | [a, b, c, d, e, f, g, h] =>
      let s1 := (rotr 6 e) ^^^ (rotr 11 e) ^^^ (rotr 25 e)
      let ch := (e &&& f) ^^^ ((not32 e) &&& g)
      let temp1 := w32 (h + s1 + ch + kw.1 + kw.2)
      let s0 := (rotr 2 a) ^^^ (rotr 13 a) ^^^ (rotr 22 a)
      let maj := (a &&& b) ^^^ (a &&& c) ^^^ (b &&& c)
      let temp2 := w32 (s0 + maj)
      [w32 (temp1 + temp2), a, b, c, w32 (d + temp1), e, f, g]
  | s => s

/-- Compression of one 64-byte chunk into the running hash state. -/
def sha_compress (h : List Nat) (chunk : List Nat) : List Nat :=
  let ws := (List.range 48).foldl (fun acc _ => sha_extend acc) (bytes_to_words chunk)
  let final := (SHA_K.zip ws).foldl sha_round h
  (h.zip final).map (fun p => w32 (p.1 + p.2))

/-- Splitting a byte list into 64-byte chunks. -/
def chunks64 : List Nat → List (List Nat)
  | [] => []
  | b :: rest => ((b :: rest).take 64) :: chunks64 ((b :: rest).drop 64)
termination_by l => l.length
decreasing_by simp; omega

/-- The SHA-256 state after digesting `msg`, as eight 32-bit words. -/
def sha256_words (msg : List Nat) : List Nat :=
  (chunks64 (sha256_pad msg)).foldl sha_compress SHA_H0

/-- The `hashlib.sha256(...).hexdigest()` of a byte string. -/
def sha256_hexdigest (msg : List Nat) : String :=
  String.join ((sha256_words msg).map (fun word => String.mk (hex_digits 8 word)))

/-- The `provenance_hash` function of `versioning.py`:
`sha256(json.dumps(results, sort_keys=True, default=str).encode('utf-8')).hexdigest()`
for a result tree given as its top-level dict entries in insertion
order. -/
def provenance_hash (results : List (String × JValue)) : String :=
  sha256_hexdigest (utf8_bytes (serialize (.obj results)))

/-- The hash part of `finalize_provenance`: appends the
`reproducibility_hash_sha256` entry to the provenance dict (the wall-clock
`analysis_end_time_utc` entry is not modelled). -/
def finalize_provenance (provenance : List (String × JValue))
    (results : List (String × JValue)) : List (String × JValue) :=
  provenance ++ [("reproducibility_hash_sha256", .str (provenance_hash results))]

/-! ## Shared concrete instances used by the theorems below -/

/-- The §8 scenario effect record: effect allele `G`, odds ratio `1.40`,
no confidence interval. -/
def scenario_variant : VariantInfo :=
  { effect_size := some 1.4, risk_allele := some 'G' }

/-- The label transformation that inverting an odds ratio actually applies
in `categorize_or`: the protective suffix is appended to a bin label, the
`negligible` label is unchanged, and above the largest bin the whole label
`very_large_risk` is replaced by `very_large_protective`. -/
def protective_form (label : String) : String :=
  if label = "negligible" then "negligible"
  else if label = "very_large_risk" then "very_large_protective"
  else label ++ "_protective"

/-- A two-variant score model without any weight uncertainty. -/
def prs_model_plain : ScoreInfo :=
  { variants := [("rs1001", { weight := 0.25, risk_allele := some 'A' }),
                 ("rs2002", { weight := -0.30, risk_allele := some 'C' })],
    population_mean := 0, population_sd := 1 }

/-- A one-variant score model whose weight carries a standard error. -/
def prs_model_with_se : ScoreInfo :=
  { variants := [("rs1001", { weight := 0.25, risk_allele := some 'A',
                              se_weight := some 0.1 })],
    population_mean := 0, population_sd := 1 }

/-- Sample calls for the two score models above. -/
def prs_calls : List (String × String) :=
  [("rs1001", "AA"), ("rs2002", "AC")]

/-- A two-entry result tree, insertion order `alpha` then `beta`. -/
def demo_tree_ab : List (String × JValue) :=
  [("alpha", .int 1), ("beta", .str "x")]

/-- The same mapping as `demo_tree_ab`, insertion order `beta` then
`alpha`. -/
def demo_tree_ba : List (String × JValue) :=
  [("beta", .str "x"), ("alpha", .int 1)]

/-- A one-leaf tree whose leaf is a coerced (non-JSON-native) value, for
example a datetime whose `str()` form is the stored text. -/
def coerced_leaf_tree : List (String × JValue) :=
  [("stamp", .coerced "2025-03-01 00:00:00")]

/-- A one-leaf tree whose leaf is the plain string equal to the coerced
form of `coerced_leaf_tree`'s leaf. -/
def string_leaf_tree : List (String × JValue) :=
  [("stamp", .str "2025-03-01 00:00:00")]

/-! ## Theorems -/

/-- Claim C2 (counterexample).  The genotype `""` violates the length
invariant (length 0), yet `_calculate_variant_risk` does not fail: it
returns exactly the defaulted result the claim rules out, with
`relative_risk = 1.0` and the "no alleles present" interpretation. -/
theorem c2_counterexample_empty_genotype :
    _calculate_variant_risk "" scenario_variant =
      { relative_risk := some 1.0, risk_level := some "Low",
        interpretation := some "No risk alleles present",
        relative_risk_ci_95 := none, phenotype := none } := by
  norm_num [_calculate_variant_risk, scenario_variant, numeric_risk_branch,
    List.count_nil]

/-- Claim C2 (amended).  The Variant Risk Calculator performs no genotype
validation at all: there is no failure path, and any genotype — including
one of length 0 or with characters outside A,C,G,T — flows through allele
counting, so a genotype containing zero copies of the risk allele is
reported as `relative_risk = 1.0`, `risk_level = Low`, "No risk alleles
present". -/
theorem c2_no_genotype_validation (genotype : String) (v : VariantInfo)
    (es : ℚ) (ra : Char) (hes : v.effect_size = some es)
    (hra : v.risk_allele = some ra) (hcount : genotype.toList.count ra = 0) :
    (_calculate_variant_risk genotype v).relative_risk = some 1.0 ∧
    (_calculate_variant_risk genotype v).risk_level = some "Low" ∧
    (_calculate_variant_risk genotype v).interpretation =
      some "No risk alleles present" := by
  obtain ⟨oes, ora, oci, ofa, osa⟩ := v
  cases hes; cases hra
  have hcount2 : List.count ra genotype.data = 0 := hcount
  simp [_calculate_variant_risk, numeric_risk_branch, hcount2]

/-- Witness for `c2_no_genotype_validation` at the malformed genotype
`""`. -/
theorem c2_witness :
    (_calculate_variant_risk "" scenario_variant).relative_risk = some 1.0 ∧
    (_calculate_variant_risk "" scenario_variant).risk_level = some "Low" ∧
    (_calculate_variant_risk "" scenario_variant).interpretation =
      some "No risk alleles present" :=
  c2_no_genotype_validation "" scenario_variant 1.4 'G' rfl rfl (by decide)

/-- Claim C3 (counterexample).  On genotype `"AG"`, effect allele `G`,
effect size `1.40`, the code labels the heterozygote `"Moderate"` (the
`effect_size < 1.5` branch), not `"Moderately High"` as the claim
states. -/
theorem c3_counterexample_risk_level :
    (_calculate_variant_risk "AG" scenario_variant).risk_level ≠
      some "Moderately High" := by
  have h : (_calculate_variant_risk "AG" scenario_variant).risk_level =
      some "Moderate" := by
    norm_num [_calculate_variant_risk, scenario_variant, numeric_risk_branch,
      List.count_cons, List.count_nil, show ('A' = 'G') = False by decide]
  rw [h]
  simp only [ne_eq, Option.some.injEq]
  decide

/-- Claim C3 (amended).  Scenario genotype `"AG"`, effect allele `"G"`,
numeric effect size `1.40`, no confidence interval supplied: the effect
allele occurs once, and the calculator returns `relative_risk = 1.40`,
`risk_level = Moderate` (not `Moderately High`: `1.40 < 1.5`),
interpretation "Heterozygous carrier", and no confidence interval.  The
result dictionary carries no explicit allele-count entry; the count is the
`genotype.count` expression shown. -/
theorem c3_heterozygous_scenario :
    "AG".toList.count 'G' = 1 ∧
    _calculate_variant_risk "AG" scenario_variant =
      { relative_risk := some (1.4 : ℝ), risk_level := some "Moderate",
        interpretation := some "Heterozygous carrier",
        relative_risk_ci_95 := none, phenotype := none } := by
  constructor
  · decide
  · norm_num [_calculate_variant_risk, scenario_variant, numeric_risk_branch,
      List.count_cons, List.count_nil, show ('A' = 'G') = False by decide]

/-- Claim C8 (confirmed).  Scenario genotype `"GG"`, effect allele `"G"`,
numeric effect size `1.40`: the effect allele occurs twice and the
calculator returns `relative_risk = 1.40 ^ 1.5` (a value in
(1.656, 1.657), i.e. ≈ 1.657); in general, whenever the effect allele
count is 2, `relative_risk = effect_size ^ 1.5` for `effect_size ≥ 1` and
`effect_size ^ (1/1.5)` otherwise. -/
theorem c8_homozygous_scenario :
    "GG".toList.count 'G' = 2 ∧
    (_calculate_variant_risk "GG" scenario_variant).relative_risk =
      some (((1.4 : ℚ) : ℝ) ^ (1.5 : ℝ)) ∧
    ((1.656 : ℝ) < ((1.4 : ℚ) : ℝ) ^ (1.5 : ℝ) ∧
      ((1.4 : ℚ) : ℝ) ^ (1.5 : ℝ) < 1.657) ∧
    (∀ (genotype : String) (v : VariantInfo) (es : ℚ) (ra : Char),
      v.effect_size = some es → v.risk_allele = some ra →
      genotype.toList.count ra = 2 →
      (_calculate_variant_risk genotype v).relative_risk =
        some (if es ≥ 1 then ((es : ℚ) : ℝ) ^ (1.5 : ℝ)
              else ((es : ℚ) : ℝ) ^ ((1 : ℝ) / 1.5))) := by
  refine ⟨by decide, ?_, ?_, ?_⟩
  · norm_num [_calculate_variant_risk, scenario_variant, numeric_risk_branch,
      List.count_cons, List.count_nil]
  · have ha : (0:ℝ) < 1.4 := by norm_num
    have hsplit : ((1.4 : ℚ) : ℝ) ^ (1.5 : ℝ) = 1.4 * Real.sqrt 1.4 := by
      rw [show ((1.4 : ℚ) : ℝ) = (1.4 : ℝ) by norm_num,
        show (1.5 : ℝ) = 1 + (1/2 : ℝ) by norm_num, Real.rpow_add ha,
        Real.rpow_one, ← Real.sqrt_eq_rpow]
    have hsq := Real.sq_sqrt (show (0:ℝ) ≤ 1.4 by norm_num)
    have hnn := Real.sqrt_nonneg (1.4 : ℝ)
    constructor
    · rw [hsplit]; nlinarith [hsq, hnn]
    · rw [hsplit]; nlinarith [hsq, hnn]
  · intro genotype v es ra hes hra hcount
    obtain ⟨oes, ora, oci, ofa, osa⟩ := v
    cases hes; cases hra
    have hcount2 : List.count ra genotype.data = 2 := hcount
    simp [_calculate_variant_risk, numeric_risk_branch, hcount2, ge_iff_le]

/-- Claim C9 (confirmed).  The magnitude bins of `EFFECT_BINS` are closed
intervals sharing their endpoints and the first matching bin in source
order wins: an effective ratio of exactly 1.1 is `negligible` (the
negligible bin precedes the small bin), exactly 1.25 is `small`
(`small_protective` for the protective input 0.8 whose inverse is exactly
1.25), and exactly 1.5 is `moderate` (`moderate_protective` for the input
2/3). -/
theorem c9_bin_boundaries :
    categorize_or (some 1.1) = "negligible" ∧
    categorize_or (some 1.25) = "small" ∧
    categorize_or (some 1.5) = "moderate" ∧
    categorize_or (some 0.8) = "small_protective" ∧
    categorize_or (some (2/3)) = "moderate_protective" := by
  refine ⟨?_, ?_, ?_, ?_, ?_⟩
  · norm_num [categorize_or, find_bin, EFFECT_BINS]
  · norm_num [categorize_or, find_bin, EFFECT_BINS]
  · norm_num [categorize_or, find_bin, EFFECT_BINS]
  · norm_num [categorize_or, find_bin, EFFECT_BINS,
      show ("small" = "negligible") = False by decide,
      show "small" ++ "_protective" = "small_protective" from rfl]
  · norm_num [categorize_or, find_bin, EFFECT_BINS,
      show ("moderate" = "negligible") = False by decide,
      show "moderate" ++ "_protective" = "moderate_protective" from rfl]

/-- Claim C7 (confirmed).  For a validation rule expecting direction
`risk` whose located odds ratio is 0.62, the Effect Classifier returns
`large_protective` (a label containing "protective") and the
direction-conflict branch emits `DIRECTION_CONFLICT`; whenever the
observed label does not contain "protective", that branch emits `PASS`
for an expected `risk` direction. -/
theorem c7_direction_conflict :
    direction_conflict_status "risk" (some 0.62) = "DIRECTION_CONFLICT" ∧
    categorize_or (some 0.62) = "large_protective" ∧
    ("protective".toList <:+: (categorize_or (some 0.62)).toList) ∧
    (∀ or_val : ℚ,
      ¬ ("protective".toList <:+: (categorize_or (some or_val)).toList) →
      direction_conflict_status "risk" (some or_val) = "PASS") := by
  have h : categorize_or (some 0.62) = "large_protective" := by
    norm_num [categorize_or, find_bin, EFFECT_BINS,
      show ("large" = "negligible") = False by decide,
      show "large" ++ "_protective" = "large_protective" from rfl]
  refine ⟨?_, h, ?_, ?_⟩
  · simp only [direction_conflict_status, h]
    decide
  · rw [h]; decide
  · intro or_val hnp
    simp only [direction_conflict_status]
    rw [if_neg]
    rintro (⟨-, hp⟩ | ⟨hrp, -⟩)
    · exact hnp hp
    · exact absurd hrp (by decide)

/-- Witness for the `PASS` arm of `c7_direction_conflict`: the odds ratio
2 classifies as plain `large` (no "protective"), so the expected `risk`
direction passes. -/
theorem c7_witness :
    direction_conflict_status "risk" (some 2) = "PASS" := by
  have h : categorize_or (some 2) = "large" := by
    norm_num [categorize_or, find_bin, EFFECT_BINS]
  exact c7_direction_conflict.2.2.2 2 (by rw [h]; decide)

/-- Claim C10 (confirmed).  The `safeguard` wrapper returns the stage
body's outcome unchanged: if the body raises, a crash dump carrying the
stage name, exception and partial results is assembled and the original
exception is re-raised whether or not the dump file write succeeds
(`write_ok` false models a failing `write_text`); if the body does not
raise, its result is passed through with no dump. -/
theorem c10_safeguard_reraises {ρ ε α : Type} (stage : String) (results : ρ)
    (body : Except ε α) (write_ok : Bool) :
    (safeguard stage results body write_ok).1 = body ∧
    (∀ e : ε, body = .error e →
      (safeguard stage results body write_ok).2 =
        some (⟨stage, e, results⟩, write_ok)) ∧
    (∀ a : α, body = .ok a →
      (safeguard stage results body write_ok).2 = none) := by
  cases body <;> simp [safeguard]

/-- Congruence helper: the fast-allele branch cannot distinguish two
genotypes neither of which is a doubled single character. -/
theorem fast_allele_branch_congr (g₁ g₂ : String) (v : VariantInfo)
    (h₁ : ∀ c : Char, g₁ ≠ String.mk [c, c])
    (h₂ : ∀ c : Char, g₂ ≠ String.mk [c, c]) :
    fast_allele_branch g₁ v = fast_allele_branch g₂ v := by
  unfold fast_allele_branch
  cases v.fast_allele with
  | none => rfl
  | some fa =>
      dsimp only
      rw [if_neg (h₁ fa), if_neg (h₂ fa)]
      cases v.slow_allele with
      | none => rfl
      | some sa =>
          dsimp only
          rw [if_neg (h₁ sa), if_neg (h₂ sa)]

/-- Congruence helper: the numeric branch depends on the genotype only
through the risk-allele count. -/
theorem numeric_risk_branch_congr (g₁ g₂ : String) (ra : Char) (es : ℚ)
    (ci : Option (ℚ × ℚ)) (h : g₁.toList.count ra = g₂.toList.count ra) :
    numeric_risk_branch g₁ ra es ci = numeric_risk_branch g₂ ra es ci := by
  unfold numeric_risk_branch
  rw [h]

/-- Congruence helper: `_calculate_variant_risk` returns the same result
on two genotypes whose character lists are permutations of each other,
provided neither is a doubled single character. -/
theorem variant_risk_perm_congr (g₁ g₂ : String) (v : VariantInfo)
    (hperm : g₁.toList.Perm g₂.toList)
    (hnc₁ : ∀ c : Char, g₁ ≠ String.mk [c, c])
    (hnc₂ : ∀ c : Char, g₂ ≠ String.mk [c, c]) :
    _calculate_variant_risk g₁ v = _calculate_variant_risk g₂ v := by
  unfold _calculate_variant_risk
  cases hes : v.effect_size with
  | none => exact fast_allele_branch_congr g₁ g₂ v hnc₁ hnc₂
  | some es =>
      cases hra : v.risk_allele with
      | some ra =>
          exact numeric_risk_branch_congr g₁ g₂ ra es v.ci_95 (hperm.count_eq ra)
      | none =>
          dsimp only
          by_cases hs : '/' ∈ g₁.toList
          · rw [if_pos hs, if_pos (hperm.mem_iff.mp hs), hperm.count_eq '1']
          · rw [if_neg hs, if_neg (fun hs2 => hs (hperm.mem_iff.mpr hs2))]
            exact fast_allele_branch_congr g₁ g₂ v hnc₁ hnc₂

/-- Helper: a two-character genotype with distinct characters is not a
doubled single character. -/
theorem distinct_pair_ne_double {b₁ b₂ : Char} (g : String)
    (hpair : g.toList = [b₁, b₂]) (hne : b₁ ≠ b₂) :
    ∀ c : Char, g ≠ String.mk [c, c] := by
  intro c hEq
  apply hne
  have h : [b₁, b₂] = [c, c] := by rw [← hpair, hEq]; rfl
  simp only [List.cons.injEq, and_true] at h
  exact h.1.trans h.2.symm

/-- Claim C1 (confirmed).  For a two-letter genotype whose unordered base
pair is {A,T} or {C,G} and whose target effect allele does not occur in
it, the risk calculated by `_calculate_variant_risk` is exactly the risk
calculated on the reverse complement of the genotype (each base mapped
A↔T, C↔G, order preserved), and the effect-allele count on the reverse
complement equals the count the calculator uses: complementing a
strand-ambiguous pair permutes its two bases, so direct counting already
agrees with reverse-complement counting. -/
theorem c1_strand_ambiguity_resolution (genotype : String) (v : VariantInfo)
    (ra b₁ b₂ : Char)
    (_hra : v.risk_allele = some ra)
    (hpair : genotype.toList = [b₁, b₂])
    (hambig : (b₁ = 'A' ∧ b₂ = 'T') ∨ (b₁ = 'T' ∧ b₂ = 'A') ∨
              (b₁ = 'C' ∧ b₂ = 'G') ∨ (b₁ = 'G' ∧ b₂ = 'C'))
    (_hnot : ra ∉ genotype.toList) :
    _calculate_variant_risk genotype v =
      _calculate_variant_risk (complement_in_place genotype) v ∧
    genotype.toList.count ra = (complement_in_place genotype).toList.count ra := by
  have hpd : genotype.data = [b₁, b₂] := hpair
  have hcl : (complement_in_place genotype).toList =
      [complement_base b₁, complement_base b₂] := by
    simp [complement_in_place, hpd]
  rcases hambig with ⟨e1, e2⟩ | ⟨e1, e2⟩ | ⟨e1, e2⟩ | ⟨e1, e2⟩ <;> subst e1 <;> subst e2 <;>
    simp only [show complement_base 'A' = 'T' from rfl,
      show complement_base 'T' = 'A' from rfl,
      show complement_base 'C' = 'G' from rfl,
      show complement_base 'G' = 'C' from rfl] at hcl <;>
    (have hperm : genotype.toList.Perm ((complement_in_place genotype).toList) := by
        rw [hpair, hcl]; exact List.Perm.swap _ _ _
     exact ⟨variant_risk_perm_congr _ _ v hperm
        (distinct_pair_ne_double genotype hpair (by decide))
        (distinct_pair_ne_double _ hcl (by decide)), hperm.count_eq ra⟩)

/-- Witness for `c1_strand_ambiguity_resolution`: genotype `"AT"` with
target effect allele `G`. -/
theorem c1_witness :
    _calculate_variant_risk "AT" scenario_variant =
      _calculate_variant_risk (complement_in_place "AT") scenario_variant ∧
    "AT".toList.count 'G' = (complement_in_place "AT").toList.count 'G' :=
  c1_strand_ambiguity_resolution "AT" scenario_variant 'G' 'A' 'T' rfl rfl
    (Or.inl ⟨rfl, rfl⟩) (by decide)

/-- Helper: for an argument above 1 the categorizer is the first-match bin
lookup, defaulting to `very_large_risk`. -/
theorem categorize_or_of_one_lt (r : ℚ) (h : 1 < r) :
    categorize_or (some r) = (find_bin EFFECT_BINS r).getD "very_large_risk" := by
  have h1 : ¬(r = 1) := by intro e; rw [e] at h; exact lt_irrefl 1 h
  have h2 : ¬(r ≤ 0) := by linarith
  have h3 : ¬(r < 1) := by linarith
  simp only [categorize_or, if_neg h1, if_neg h2, if_neg h3]
  cases hfb : find_bin EFFECT_BINS r with
  | none => simp [hfb, if_neg h3]
  | some l =>
      simp only [hfb, Option.getD_some]
      rw [if_neg (fun hc : r < 1 ∧ l ≠ "negligible" => h3 hc.1)]

/-- Helper: for the reciprocal of an argument above 1, the categorizer
looks up the same bin and decorates its label. -/
theorem categorize_or_of_inv (r : ℚ) (h : 1 < r) :
    categorize_or (some (1/r)) =
      (match find_bin EFFECT_BINS r with
       | some l => if l = "negligible" then l else l ++ "_protective"
       | none => "very_large_protective") := by
  have hr0 : (0:ℚ) < r := by linarith
  have hpos : (0:ℚ) < 1/r := by positivity
  have hlt : 1/r < 1 := by rw [div_lt_one hr0]; exact h
  have h1 : ¬(1/r = 1) := ne_of_lt hlt
  have h2 : ¬(1/r ≤ 0) := not_le.mpr hpos
  have hinv : 1/(1/r) = r := one_div_one_div r
  simp only [categorize_or, if_neg h1, if_neg h2, if_pos hlt, hinv]
  cases hfb : find_bin EFFECT_BINS r with
  | none => simp [hfb, if_pos hlt]
  | some l =>
      by_cases hl : l = "negligible"
      · simp [hfb, hl]
      · have hlt2 : r⁻¹ < 1 := by rwa [← one_div]
        simp [hfb, hl, hlt]
        exact fun hc => absurd hc (not_le.mpr hlt2)

/-- Helper: a label returned by `find_bin` is the label of one of the
searched bins. -/
theorem find_bin_mem (bins : List (ℚ × ℚ × String)) (e : ℚ) (l : String)
    (h : find_bin bins e = some l) : ∃ b ∈ bins, b.2.2 = l := by
  induction bins with
  | nil => simp [find_bin] at h
  | cons hd tl ih =>
      obtain ⟨low, high, label⟩ := hd
      rw [find_bin] at h
      split at h
      · exact ⟨(low, high, label), List.mem_cons_self _ _, (Option.some.injEq _ _).mp h⟩
      · obtain ⟨b, hb, he⟩ := ih h
        exact ⟨b, List.mem_cons_of_mem _ hb, he⟩

/-- Helper: `EFFECT_BINS` carries exactly the four magnitude labels. -/
theorem find_bin_label (r : ℚ) (l : String)
    (h : find_bin EFFECT_BINS r = some l) :
    l = "negligible" ∨ l = "small" ∨ l = "moderate" ∨ l = "large" := by
  obtain ⟨b, hb, he⟩ := find_bin_mem EFFECT_BINS r l h
  simp only [EFFECT_BINS, List.mem_cons] at hb
  rcases hb with rfl | rfl | rfl | rfl | rfl | rfl | rfl | hb <;> simp_all

/-- Claim C4 (counterexample).  At `r = 3` the claim's suffix rule fails:
`categorize_or 3` is `very_large_risk` (not `negligible`), but
`categorize_or (1/3)` is `very_large_protective`, which is not
`very_large_risk` with `"_protective"` appended. -/
theorem c4_counterexample_very_large :
    categorize_or (some 3) = "very_large_risk" ∧
    categorize_or (some (1/3)) = "very_large_protective" ∧
    categorize_or (some 3) ≠ "negligible" ∧
    categorize_or (some (1/3)) ≠ categorize_or (some 3) ++ "_protective" := by
  have h3 : categorize_or (some 3) = "very_large_risk" := by
    norm_num [categorize_or, find_bin, EFFECT_BINS]
  have hinv : categorize_or (some (1/3)) = "very_large_protective" := by
    norm_num [categorize_or, find_bin, EFFECT_BINS]
  refine ⟨h3, hinv, ?_, ?_⟩
  · rw [h3]; decide
  · rw [h3, hinv]; decide

/-- Claim C4 (amended).  `categorize_or 1 = "negligible"` exactly, and for
every rational `r > 1` the labels of `r` and `1/r` match with the
protective marker toggled in the form the code actually produces: the bin
label is suffixed with `_protective` (negligible stays bare), while above
the largest bin the label pair is `very_large_risk` /
`very_large_protective` — the suffix replaces `_risk` rather than being
appended. -/
theorem c4_inversion_symmetry :
    (∀ r : ℚ, 1 < r →
      categorize_or (some (1/r)) = protective_form (categorize_or (some r))) ∧
    categorize_or (some 1) = "negligible" := by
  constructor
  · intro r h
    rw [categorize_or_of_inv r h, categorize_or_of_one_lt r h]
    cases hfb : find_bin EFFECT_BINS r with
    | none =>
        simp [protective_form, show ("very_large_risk" = "negligible") = False by decide]
    | some l =>
        rcases find_bin_label r l hfb with rfl | rfl | rfl | rfl <;>
          simp [protective_form]
  · norm_num [categorize_or]

/-- Witness for `c4_inversion_symmetry` at `r = 3/2`. -/
theorem c4_witness :
    categorize_or (some (1/(3/2 : ℚ))) =
      protective_form (categorize_or (some (3/2 : ℚ))) :=
  c4_inversion_symmetry.1 (3/2) (by norm_num)

/-- Helper: a variant contributes to `variance_sum_for_prs` only when it
is found among the calls, has an effect-allele key, and carries weight
uncertainty; otherwise the running variance is unchanged. -/
theorem prs_vsum_const (calls : List (String × String))
    (l : List (String × PRSVariant)) (st : ℚ × ℕ × ℚ)
    (h : ∀ e ∈ l, (lookup_genotype calls e.1).isSome →
      (effect_allele_of e.2).isSome →
      e.2.se_weight = none ∧ e.2.ci_95_weight = none) :
    (l.foldl (prs_step calls) st).2.2 = st.2.2 := by
  induction l generalizing st with
  | nil => rfl
  | cons hd tl ih =>
      rw [List.foldl_cons, ih _ (fun e he => h e (List.mem_cons_of_mem _ he))]
      unfold prs_step
      cases hg : lookup_genotype calls hd.1 with
      | none => rfl
      | some g =>
          cases ha : effect_allele_of hd.2 with
          | none => rfl
          | some a =>
              obtain ⟨hse, hci⟩ := h hd (List.mem_cons_self _ _)
                (by rw [hg]; rfl) (by rw [ha]; rfl)
              simp [var_of_weighted_effect, hse, hci]

/-- Claim C6 (confirmed).  For every score model: if no variant used in
the score supplies weight uncertainty (neither a standard error nor a
95%-CI on the weight), both `raw_score_ci_95` and `z_score_ci_95` are
`none`; and whenever `raw_score_ci_95` is present it is exactly
`raw_score ± 1.96 · √variance_sum`, so its lower bound is ≤ `raw_score` ≤
its upper bound. -/
theorem c6_prs_confidence_intervals (score_info : ScoreInfo)
    (calls : List (String × String)) :
    ((∀ e ∈ score_info.variants, (lookup_genotype calls e.1).isSome →
        (effect_allele_of e.2).isSome →
        e.2.se_weight = none ∧ e.2.ci_95_weight = none) →
      (calculate_polygenic_score score_info calls).raw_score_ci_95 = none ∧
      (calculate_polygenic_score score_info calls).z_score_ci_95 = none) ∧
    (∀ lo hi,
      (calculate_polygenic_score score_info calls).raw_score_ci_95 = some (lo, hi) →
      lo = ((calculate_polygenic_score score_info calls).raw_score : ℝ) -
            1.96 * Real.sqrt (((prs_accumulate score_info calls).2.2 : ℚ) : ℝ) ∧
      hi = ((calculate_polygenic_score score_info calls).raw_score : ℝ) +
            1.96 * Real.sqrt (((prs_accumulate score_info calls).2.2 : ℚ) : ℝ) ∧
      lo ≤ ((calculate_polygenic_score score_info calls).raw_score : ℝ) ∧
      ((calculate_polygenic_score score_info calls).raw_score : ℝ) ≤ hi) := by
  constructor
  · intro h
    have hv : (prs_accumulate score_info calls).2.2 = 0 :=
      prs_vsum_const calls score_info.variants (0, 0, 0) h
    constructor <;>
      simp [calculate_polygenic_score, hv]
  · intro lo hi hci
    by_cases hv : (prs_accumulate score_info calls).2.2 > 0
    · have hraw : (calculate_polygenic_score score_info calls).raw_score =
        (prs_accumulate score_info calls).1 := rfl
      simp only [calculate_polygenic_score, if_pos hv, Option.some.injEq, Prod.mk.injEq] at hci
      obtain ⟨hlo, hhi⟩ := hci
      have hnn : (0:ℝ) ≤ 1.96 * Real.sqrt (((prs_accumulate score_info calls).2.2 : ℚ) : ℝ) := by
        positivity
      subst hlo; subst hhi
      refine ⟨rfl, rfl, ?_, ?_⟩ <;> rw [hraw] <;> linarith
    · simp only [calculate_polygenic_score, if_neg hv] at hci
      exact absurd hci (by simp)

/-- Witness for `c6_prs_confidence_intervals`: the uncertainty-free
two-variant model yields `none` for both intervals, and the model with a
weight standard error yields an interval bracketing its raw score. -/
theorem c6_witness :
    ((calculate_polygenic_score prs_model_plain prs_calls).raw_score_ci_95 = none ∧
     (calculate_polygenic_score prs_model_plain prs_calls).z_score_ci_95 = none) ∧
    (∃ lo hi,
      (calculate_polygenic_score prs_model_with_se prs_calls).raw_score_ci_95 =
        some (lo, hi) ∧
      lo ≤ ((calculate_polygenic_score prs_model_with_se prs_calls).raw_score : ℝ) ∧
      ((calculate_polygenic_score prs_model_with_se prs_calls).raw_score : ℝ) ≤ hi) := by
  constructor
  · exact (c6_prs_confidence_intervals prs_model_plain prs_calls).1 (by
      intro e he _ _
      simp only [prs_model_plain, List.mem_cons, List.not_mem_nil, or_false] at he
      rcases he with rfl | rfl <;> exact ⟨rfl, rfl⟩)
  · have hacc : prs_accumulate prs_model_with_se prs_calls = (1/2, 1, 1/25) := by
      simp [prs_accumulate, prs_model_with_se, prs_calls, prs_step, lookup_genotype,
        effect_allele_of, var_of_weighted_effect, List.find?, List.count_cons, List.count_nil]
      norm_num
    have hci : (calculate_polygenic_score prs_model_with_se prs_calls).raw_score_ci_95 =
        some ((((1:ℚ)/2 : ℚ) : ℝ) - 1.96 * Real.sqrt (((1:ℚ)/25 : ℚ) : ℝ),
              (((1:ℚ)/2 : ℚ) : ℝ) + 1.96 * Real.sqrt (((1:ℚ)/25 : ℚ) : ℝ)) := by
      simp only [calculate_polygenic_score, hacc]
      norm_num
    obtain ⟨h1, h2, h3, h4⟩ :=
      (c6_prs_confidence_intervals prs_model_with_se prs_calls).2 _ _ hci
    exact ⟨_, _, hci, h3, h4⟩

/-- Helper: rendering object entries is a map keeping the raw key. -/
theorem render_entries_eq_map (l : List (String × JValue)) :
    render_entries l =
      l.map (fun kv => (kv.1, escape_string kv.1 ++ ": " ++ serialize kv.2)) := by
  induction l with
  | nil => rw [render_entries]; rfl
  | cons hd tl ih =>
      obtain ⟨k, v⟩ := hd
      rw [render_entries, ih]
      rfl

/-- Helper: sorting by key maps two permuted entry lists with duplicate-free
keys to the same list. -/
theorem sort_obj_entries_eq_of_perm (l₁ l₂ : List (String × String))
    (hperm : l₁.Perm l₂) (hnodup : (l₁.map Prod.fst).Nodup) :
    sort_obj_entries l₁ = sort_obj_entries l₂ := by
  haveI : IsTotal (String × String) (fun a b => a.1 ≤ b.1) :=
    ⟨fun a b => le_total a.1 b.1⟩
  haveI : IsTrans (String × String) (fun a b => a.1 ≤ b.1) :=
    ⟨fun a b c hab hbc => le_trans hab hbc⟩
  haveI : IsAntisymm (String × String)
      (fun a b => a.1 ≤ b.1 ∧ a.1 ≠ b.1) :=
    ⟨fun a b hab hba => absurd (le_antisymm hab.1 hba.1) hab.2⟩
  have hsp₁ := List.perm_insertionSort (fun a b : String × String => a.1 ≤ b.1) l₁
  have hsp₂ := List.perm_insertionSort (fun a b : String × String => a.1 ≤ b.1) l₂
  have hperm2 : (sort_obj_entries l₁).Perm (sort_obj_entries l₂) :=
    (hsp₁.trans hperm).trans hsp₂.symm
  have hn₁ : ((sort_obj_entries l₁).map Prod.fst).Nodup :=
    ((hsp₁.map Prod.fst).nodup_iff).mpr hnodup
  have hn₂ : ((sort_obj_entries l₂).map Prod.fst).Nodup :=
    ((hperm2.map Prod.fst).nodup_iff).mp hn₁
  have hne₁ : (sort_obj_entries l₁).Pairwise (fun a b => a.1 ≠ b.1) :=
    List.pairwise_map.mp hn₁
  have hne₂ : (sort_obj_entries l₂).Pairwise (fun a b => a.1 ≠ b.1) :=
    List.pairwise_map.mp hn₂
  have hs₁ : (sort_obj_entries l₁).Pairwise (fun a b => a.1 ≤ b.1 ∧ a.1 ≠ b.1) :=
    (List.sorted_insertionSort _ l₁).and hne₁
  have hs₂ : (sort_obj_entries l₂).Pairwise (fun a b => a.1 ≤ b.1 ∧ a.1 ≠ b.1) :=
    (List.sorted_insertionSort _ l₂).and hne₂
  exact List.eq_of_perm_of_sorted hperm2 hs₁ hs₂

/-- Helper: the canonical serialization is invariant under reordering an
object's entries when the keys are duplicate-free. -/
theorem serialize_obj_of_perm (kvs₁ kvs₂ : List (String × JValue))
    (hperm : kvs₁.Perm kvs₂) (hnodup : (kvs₁.map Prod.fst).Nodup) :
    serialize (.obj kvs₁) = serialize (.obj kvs₂) := by
  have hr : (render_entries kvs₁).Perm (render_entries kvs₂) := by
    rw [render_entries_eq_map, render_entries_eq_map]
    exact hperm.map _
  have hrn : ((render_entries kvs₁).map Prod.fst).Nodup := by
    rw [render_entries_eq_map, List.map_map]
    exact hnodup
  have hsort : sort_obj_entries (render_entries kvs₁) =
      sort_obj_entries (render_entries kvs₂) :=
    sort_obj_entries_eq_of_perm _ _ hr hrn
  simp only [serialize, hsort]

/-- Claim C5 (amended, theorem).  `provenance_hash` is a deterministic
function of the result tree's key-value mappings with stable key ordering:
two top-level dictionaries holding the same entries in different insertion
orders (keys duplicate-free, as in a Python dict) hash identically.  The
leaf-sensitivity half of the original claim fails — see the
counterexample: a coerced leaf and its canonical string form serialize,
and therefore hash, identically. -/
theorem c5_provenance_determinism (kvs₁ kvs₂ : List (String × JValue))
    (hperm : kvs₁.Perm kvs₂) (hnodup : (kvs₁.map Prod.fst).Nodup) :
    provenance_hash kvs₁ = provenance_hash kvs₂ := by
  unfold provenance_hash
  rw [serialize_obj_of_perm kvs₁ kvs₂ hperm hnodup]

/-- Witness for `c5_provenance_determinism`: the two-entry tree hashed in
both insertion orders. -/
theorem c5_witness : provenance_hash demo_tree_ab = provenance_hash demo_tree_ba :=
  c5_provenance_determinism demo_tree_ab demo_tree_ba (List.Perm.swap _ _ _) (by decide)

/-- Claim C5 (counterexample).  Changing the single leaf of a one-entry
tree from a coerced (non-JSON-native, e.g. datetime) value to the plain
string that is its canonical form changes the dictionary but not the
hash: `json.dumps(..., default=str)` renders both identically, so the
"changing any single leaf value changes the hash" half of the claim is
false. -/
theorem c5_counterexample_coerced_leaf :
    JValue.coerced "2025-03-01 00:00:00" ≠ JValue.str "2025-03-01 00:00:00" ∧
    coerced_leaf_tree ≠ string_leaf_tree ∧
    provenance_hash coerced_leaf_tree = provenance_hash string_leaf_tree := by
  refine ⟨fun h => JValue.noConfusion h, ?_, ?_⟩
  · intro h
    rw [coerced_leaf_tree, string_leaf_tree] at h
    injection h with hpair htail
    injection hpair with hk hv
    exact JValue.noConfusion hv
  · unfold provenance_hash
    have hs : serialize (.obj coerced_leaf_tree) = serialize (.obj string_leaf_tree) := by
      simp [serialize, coerced_leaf_tree, string_leaf_tree, render_entries]
    rw [hs]
